import Mathlib

/-!
Shallow embedding of the python-desfire protocol-framing layer:
the PC/SC command transceiver (src/desfire/devices/pcsc.py) and the
file-settings binary codec (src/desfire/schemas/file_settings.py).

Byte sequences are modelled as `List Nat` (each element a byte value).
Python exceptions are modelled by explicit error values; an in-place
mutating method (`FileSettings.parse`) is modelled as a state transformer
returning the final object state together with the propagated exception,
so that the fields assigned before a failure point stay observable,
exactly as they do on the mutated Python object.
-/

namespace Desfire

/-- Errors raised by `PCSCDevice.transceive`, one constructor per raise
site in the source: the non-open-connection guard, the `bytes[0]` access
on an empty command, the nonzero `SCardTransmit` result, the
shorter-than-2-bytes response check, and the SW1-is-not-0x91 check. -/
inductive TransceiveErr where
  | notOpen
  | indexError
  | transmitFailure (hresult : Int)
  | malformedResponse (len : Nat)
  | unexpectedStatusWord (sw1 : Nat)
deriving DecidableEq

/-- The reader channel consumed by `transceive`: the `hcard` open-handle
flag and the raw `SCardTransmit` primitive, returning a result code and
the raw response bytes. -/
structure Channel where
  hcard : Bool
  transmit : List Nat → Int × List Nat

/-- The APDU built on line 47 of pcsc.py:
`[0x90, bytes[0], 0x00, 0x00, len(bytes[1:])] + bytes[1:] + ([0x00] if len(bytes[1:]) > 0 else [])`. -/
def buildAPDU (bytes : List Nat) : List Nat :=
  [0x90, bytes.getD 0 0, 0x00, 0x00, (bytes.drop 1).length]
    ++ bytes.drop 1
    ++ (if (bytes.drop 1).length > 0 then [0x00] else [])

/-- `PCSCDevice.transceive`: check the connection is open, build the APDU
(`bytes[0]` raises IndexError on an empty command), transmit, check the
result code, require at least 2 response bytes, require SW1 = 0x91, and
return `[response[-1]] + response[:-2]`. -/
def transceive (ch : Channel) (bytes : List Nat) : Except TransceiveErr (List Nat) :=
  if ch.hcard = false then .error .notOpen
  else if bytes.length = 0 then .error .indexError
  else
    let res := ch.transmit (buildAPDU bytes)
    let hresult := res.1
    let response := res.2
    if hresult ≠ 0 then .error (.transmitFailure hresult)
    else if response.length < 2 then .error (.malformedResponse response.length)
    else if response.getD (response.length - 2) 0 ≠ 0x91 then
      .error (.unexpectedStatusWord (response.getD (response.length - 2) 0))
    else .ok (response.getD (response.length - 1) 0 :: response.take (response.length - 2))

/-- A synthetic channel with an open handle that returns result code 0 and
the fixed raw response `r` for every frame. -/
def echoChannel (r : List Nat) : Channel :=
  ⟨true, fun _ => (0, r)⟩

/-- Modelled from the spec: the FileType enumeration of
src/desfire/enums.py, which is not part of the given source. The codec
branches on the five supported member names visible in
file_settings.py, the spec lists a sixth, explicitly unsupported
TransactionMac member, and any other byte is not a member (the Python
enum constructor rejects it with ValueError). -/
inductive DESFireFileType where
  | MDFT_STANDARD_DATA_FILE
  | MDFT_BACKUP_DATA_FILE
  | MDFT_VALUE_FILE_WITH_BACKUP
  | MDFT_LINEAR_RECORD_FILE_WITH_BACKUP
  | MDFT_CYCLIC_RECORD_FILE_WITH_BACKUP
  | MDFT_TRANSACTION_MAC_FILE
deriving DecidableEq

/-- Modelled from the spec: the numeric codes of the FileType
enumeration (standard DESFire file-type codes 0x00–0x05; the spec's
StandardData example uses discriminant 0x00). `none` models the Python
enum constructor raising ValueError on a non-member byte. -/
def DESFireFileType.ofByte (b : Nat) : Option DESFireFileType :=
  if b = 0x00 then some .MDFT_STANDARD_DATA_FILE
  else if b = 0x01 then some .MDFT_BACKUP_DATA_FILE
  else if b = 0x02 then some .MDFT_VALUE_FILE_WITH_BACKUP
  else if b = 0x03 then some .MDFT_LINEAR_RECORD_FILE_WITH_BACKUP
  else if b = 0x04 then some .MDFT_CYCLIC_RECORD_FILE_WITH_BACKUP
  else if b = 0x05 then some .MDFT_TRANSACTION_MAC_FILE
  else none

/-- Modelled from the spec: the CommunicationMode enumeration of
src/desfire/enums.py (not part of the given source): Plain, MAC and
Encrypted, with codes 0x00, 0x01 and 0x03 (the spec's StandardData
example uses 0x03 as a valid mode byte). `none` models the Python enum
constructor raising ValueError on a non-member byte. -/
inductive DESFireCommunicationMode where
  | PLAIN
  | MAC
  | ENCRYPTED
deriving DecidableEq

/-- Modelled from the spec: byte codes of the CommunicationMode
enumeration. -/
def DESFireCommunicationMode.ofByte (b : Nat) : Option DESFireCommunicationMode :=
  if b = 0x00 then some .PLAIN
  else if b = 0x01 then some .MAC
  else if b = 0x03 then some .ENCRYPTED
  else none

/-- Modelled from the spec: the Permissions record of the external
Permission Codec (src/desfire/schemas/file_permissions.py is not part of
the given source) — four 4-bit key identifiers. -/
structure FilePermissions where
  change_key : Nat
  read_write_key : Nat
  write_key : Nat
  read_key : Nat
deriving DecidableEq

/-- Modelled from the spec: the external Permission Codec, a pure total
decode of the two-byte nibble-packed span (bits 0–3 ChangeKey,
4–7 ReadWriteKey, 8–11 WriteKey, 12–15 ReadKey). -/
def FilePermissions.parse (data : List Nat) : FilePermissions :=
  ⟨data.getD 0 0 % 16, data.getD 0 0 / 16 % 16,
   data.getD 1 0 % 16, data.getD 1 0 / 16 % 16⟩

/-- Python exceptions escaping `FileSettings.parse`, one constructor per
raise site: list indexing out of bounds, the two enum constructors
rejecting a byte (each ValueError message carries the byte), a
`struct.unpack` buffer of the wrong size, and the explicit
NotImplementedError for unsupported file types (its message carries
`data[0]`). -/
inductive PyErr where
  | indexError
  | valueErrorFileType (b : Nat)
  | valueErrorCommMode (b : Nat)
  | structError
  | notImplementedError (b : Nat)
deriving DecidableEq

/-- Python slice `data[i:j]` on a list (never raises, truncates at the
ends). -/
def pySlice (data : List Nat) (i j : Nat) : List Nat :=
  (data.take j).drop i

/-- `struct.unpack("<I", bytes(bs))[0]`: requires exactly 4 bytes
(anything else raises `struct.error`) and reads them as a little-endian
unsigned 32-bit integer. -/
def structUnpackU32LE (bs : List Nat) : Except PyErr Nat :=
  if bs.length = 4 then
    .ok (bs.getD 0 0 + 256 * bs.getD 1 0 + 65536 * bs.getD 2 0 + 16777216 * bs.getD 3 0)
  else .error .structError

/-- The FileSettings object: every field of `FileSettings.__init__` with
its default value. -/
structure FileSettings where
  encryption : Option DESFireCommunicationMode := none
  file_type : Option DESFireFileType := none
  permissions : Option FilePermissions := none
  file_size : Nat := 0
  lower_limit : Nat := 0
  upper_limit : Nat := 0
  value : Nat := 0
  limited_credit_value : Nat := 0
  limited_credit_enabled : Bool := false
  record_count : Nat := 0
  max_record_count : Nat := 0
deriving DecidableEq

/-- A freshly constructed `FileSettings()`. -/
def FileSettings.init : FileSettings := {}

/-- `FileSettings.parse(data)`, modelled as a state transformer: the
returned `FileSettings` is the state of `self` when the method finishes
or the exception propagates (assignments made before a failing statement
persist, as they do on the mutated Python object), and the `Option PyErr`
is the propagated exception, `none` on success. Statement order and the
evaluation order inside each statement follow the source: `data[0]` /
enum lookup / assignment, `data[1]` / enum lookup / assignment,
permissions, then the variant tail selected by the file type. -/
def FileSettings.parse (self : FileSettings) (data : List Nat) :
    FileSettings × Option PyErr :=
  match data[0]? with
  | none => (self, some .indexError)
  | some b0 =>
    match DESFireFileType.ofByte b0 with
    | none => (self, some (.valueErrorFileType b0))
    | some ft =>
      let s1 : FileSettings := { self with file_type := some ft }
      match data[1]? with
      | none => (s1, some .indexError)
      | some b1 =>
        match DESFireCommunicationMode.ofByte b1 with
        | none => (s1, some (.valueErrorCommMode b1))
        | some cm =>
          let s2 : FileSettings := { s1 with encryption := some cm }
          let s3 : FileSettings :=
            { s2 with permissions := some (FilePermissions.parse (pySlice data 2 4)) }
          match ft with
          | .MDFT_STANDARD_DATA_FILE | .MDFT_BACKUP_DATA_FILE =>
            match structUnpackU32LE (pySlice data 4 7 ++ [0x00]) with
            | .error e => (s3, some e)
            | .ok v => ({ s3 with file_size := v }, none)
          | .MDFT_VALUE_FILE_WITH_BACKUP =>
            match structUnpackU32LE (pySlice data 4 8) with
            | .error e => (s3, some e)
            | .ok lo =>
              let s4 : FileSettings := { s3 with lower_limit := lo }
              match structUnpackU32LE (pySlice data 8 12) with
              | .error e => (s4, some e)
              | .ok hi =>
                let s5 : FileSettings := { s4 with upper_limit := hi }
                match structUnpackU32LE (pySlice data 12 16) with
                | .error e => (s5, some e)
                | .ok lcv =>
                  let s6 : FileSettings := { s5 with limited_credit_value := lcv }
                  match data[16]? with
                  | none => (s6, some .indexError)
                  | some b16 => ({ s6 with limited_credit_enabled := b16 != 0 }, none)
          | .MDFT_CYCLIC_RECORD_FILE_WITH_BACKUP | .MDFT_LINEAR_RECORD_FILE_WITH_BACKUP =>
            match structUnpackU32LE (pySlice data 4 7 ++ [0x00]) with
            | .error e => (s3, some e)
            | .ok v =>
              let s4 : FileSettings := { s3 with file_size := v }
              match structUnpackU32LE (pySlice data 7 10 ++ [0x00]) with
              | .error e => (s4, some e)
              | .ok mrc =>
                let s5 : FileSettings := { s4 with max_record_count := mrc }
                match structUnpackU32LE (pySlice data 10 13 ++ [0x00]) with
                | .error e => (s5, some e)
                | .ok rc => ({ s5 with record_count := rc }, none)
          | .MDFT_TRANSACTION_MAC_FILE => (s3, some (.notImplementedError b0))

/-- Length of a Python slice. -/
theorem pySlice_length (data : List Nat) (i j : Nat) :
    (pySlice data i j).length = min j data.length - i := by
  simp [pySlice]

/-- Behaviour of `transceive` on an open channel whose transmit primitive
succeeds with raw response `r`: the three response checks in source
order. -/
theorem transceive_eq (ch : Channel) (cmd r : List Nat) (hch : ch.hcard = true)
    (hcmd : cmd ≠ []) (htr : ch.transmit (buildAPDU cmd) = (0, r)) :
    transceive ch cmd =
      if r.length < 2 then .error (.malformedResponse r.length)
      else if r.getD (r.length - 2) 0 ≠ 0x91 then
        .error (.unexpectedStatusWord (r.getD (r.length - 2) 0))
      else .ok (r.getD (r.length - 1) 0 :: r.take (r.length - 2)) := by
  unfold transceive
  rw [hch]
  simp only [Bool.true_eq_false, if_false, List.length_eq_zero, htr]
  simp [hcmd]

/-- C1: for every native command whose payload has length n with
0 ≤ n ≤ 255, the transport frame built by `transceive` is exactly
`[0x90, command[0], 0x00, 0x00, n]` followed by the n payload bytes,
followed by a single trailing 0x00 byte iff n > 0; hence the frame has
length `5 + n + (1 if n > 0 else 0)`. -/
theorem C1_transport_frame_layout (ins : Nat) (payload : List Nat)
    (_hn : payload.length ≤ 255) :
    buildAPDU (ins :: payload)
      = [0x90, ins, 0x00, 0x00, payload.length] ++ payload
          ++ (if payload.length > 0 then [0x00] else []) ∧
    (buildAPDU (ins :: payload)).length
      = 5 + payload.length + (if payload.length > 0 then 1 else 0) := by
  constructor
  · simp [buildAPDU]
  · simp only [buildAPDU, List.getD_cons_zero, List.drop_one, List.tail_cons,
      List.length_append, List.length_cons, List.length_nil]
    split <;> simp

/-- Witness for C1 at command `[0x5A, 0x01, 0x02]`. -/
theorem C1_transport_frame_layout_witness :
    buildAPDU (0x5A :: [0x01, 0x02])
      = [0x90, 0x5A, 0x00, 0x00, ([0x01, 0x02] : List Nat).length] ++ [0x01, 0x02]
          ++ (if ([0x01, 0x02] : List Nat).length > 0 then [0x00] else []) ∧
    (buildAPDU (0x5A :: [0x01, 0x02])).length
      = 5 + ([0x01, 0x02] : List Nat).length
          + (if ([0x01, 0x02] : List Nat).length > 0 then 1 else 0) :=
  C1_transport_frame_layout 0x5A [0x01, 0x02] (by decide)

/-- C2 counterexample: with status byte 0x00 and payload `[0x01]`, a
channel echoing `[status_byte] + payload + [0x91, status_byte]` makes
`transceive` return `[0x00, 0x00, 0x01]`, which is not
`[status_byte] + payload = [0x00, 0x01]`. -/
theorem C2_status_reorder_counterexample :
    transceive (echoChannel ([0x00] ++ [0x01] ++ [0x91, 0x00])) [0x5A]
      = .ok [0x00, 0x00, 0x01] ∧
    ([0x00, 0x00, 0x01] : List Nat) ≠ [0x00] ++ [0x01] :=
  ⟨rfl, by decide⟩

/-- C2 (amended): for every raw transmit response r of length ≥ 2 whose
second-to-last byte equals 0x91, `transceive` returns
`[r[last]] ++ r[0 .. last-2]`, i.e. the last byte (SW2, the native
status) moved to the front and the two trailing status bytes stripped;
in particular, for a channel echoing `payload + [0x91, status_byte]`,
`transceive` returns `[status_byte] + payload` exactly. -/
theorem C2_status_reorder :
    (∀ (ch : Channel) (cmd r : List Nat), ch.hcard = true → cmd ≠ [] →
      ch.transmit (buildAPDU cmd) = (0, r) → 2 ≤ r.length →
      r.getD (r.length - 2) 0 = 0x91 →
      transceive ch cmd
        = .ok (r.getD (r.length - 1) 0 :: r.take (r.length - 2))) ∧
    (∀ (s : Nat) (p cmd : List Nat), cmd ≠ [] →
      transceive (echoChannel (p ++ [0x91, s])) cmd = .ok (s :: p)) := by
  have gen : ∀ (ch : Channel) (cmd r : List Nat), ch.hcard = true → cmd ≠ [] →
      ch.transmit (buildAPDU cmd) = (0, r) → 2 ≤ r.length →
      r.getD (r.length - 2) 0 = 0x91 →
      transceive ch cmd
        = .ok (r.getD (r.length - 1) 0 :: r.take (r.length - 2)) := by
    intro ch cmd r hch hcmd htr hlen hsw
    rw [transceive_eq ch cmd r hch hcmd htr]
    rw [if_neg (by omega), if_neg (by simp only [ne_eq, not_not]; exact hsw)]
  refine ⟨gen, ?_⟩
  intro s p cmd hcmd
  have hlen : (p ++ [0x91, s]).length = p.length + 2 := by simp
  have h2 : (p ++ [0x91, s]).getD ((p ++ [0x91, s]).length - 2) 0 = 0x91 := by
    rw [hlen]
    simp only [Nat.add_sub_cancel, List.getD_eq_getElem?_getD]
    rw [List.getElem?_append_right (Nat.le_refl _)]
    simp
  have h1 : (p ++ [0x91, s]).getD ((p ++ [0x91, s]).length - 1) 0 = s := by
    rw [hlen]
    simp only [Nat.add_sub_cancel, List.getD_eq_getElem?_getD]
    rw [List.getElem?_append_right (by omega)]
    simp
  have ht : (p ++ [0x91, s]).take ((p ++ [0x91, s]).length - 2) = p := by
    rw [hlen, Nat.add_sub_cancel, List.take_left]
  rw [gen (echoChannel (p ++ [0x91, s])) cmd (p ++ [0x91, s]) rfl hcmd rfl
      (by omega) h2]
  rw [h1, ht]

/-- Witness for C2 at status byte 0x42, payload `[0x07]`, command
`[0x5A]`. -/
theorem C2_status_reorder_witness :
    transceive (echoChannel ([0x07] ++ [0x91, 0x42])) [0x5A] = .ok (0x42 :: [0x07]) :=
  C2_status_reorder.2 0x42 [0x07] [0x5A] (by decide)

/-- C8: for every raw transmit response of length ≥ 2 whose
second-to-last byte b differs from 0x91, `transceive` fails with the
unexpected-status-word error reporting the observed byte b, and returns
no response. -/
theorem C8_unexpected_status_word (ch : Channel) (cmd r : List Nat)
    (hch : ch.hcard = true) (hcmd : cmd ≠ [])
    (htr : ch.transmit (buildAPDU cmd) = (0, r)) (hlen : 2 ≤ r.length)
    (hsw : r.getD (r.length - 2) 0 ≠ 0x91) :
    transceive ch cmd = .error (.unexpectedStatusWord (r.getD (r.length - 2) 0)) := by
  rw [transceive_eq ch cmd r hch hcmd htr]
  rw [if_neg (by omega), if_pos hsw]

/-- Witness for C8 at raw response `[0x90, 0x00]` (SW1 = 0x90). -/
theorem C8_unexpected_status_word_witness :
    transceive (echoChannel [0x90, 0x00]) [0x5A]
      = .error (.unexpectedStatusWord (([0x90, 0x00] : List Nat).getD
          (([0x90, 0x00] : List Nat).length - 2) 0)) :=
  C8_unexpected_status_word (echoChannel [0x90, 0x00]) [0x5A] [0x90, 0x00]
    rfl (by decide) rfl (by decide) (by decide)

/-- C9: for every raw transmit response of fewer than 2 bytes,
`transceive` fails with the malformed-response error; and every
successfully returned native response is non-empty (it contains at
least the status byte). -/
theorem C9_short_response_and_nonempty :
    (∀ (ch : Channel) (cmd r : List Nat), ch.hcard = true → cmd ≠ [] →
      ch.transmit (buildAPDU cmd) = (0, r) → r.length < 2 →
      transceive ch cmd = .error (.malformedResponse r.length)) ∧
    (∀ (ch : Channel) (cmd res : List Nat),
      transceive ch cmd = .ok res → res ≠ []) := by
  constructor
  · intro ch cmd r hch hcmd htr hlen
    rw [transceive_eq ch cmd r hch hcmd htr, if_pos hlen]
  · intro ch cmd res h
    unfold transceive at h
    split at h
    · exact absurd h (by simp)
    · split at h
      · exact absurd h (by simp)
      · simp only at h
        split at h
        · exact absurd h (by simp)
        · split at h
          · exact absurd h (by simp)
          · split at h
            · exact absurd h (by simp)
            · rw [Except.ok.injEq] at h
              rw [← h]
              exact List.cons_ne_nil _ _

/-- Witness for C9 at raw response `[0x07]` (one byte). -/
theorem C9_short_response_and_nonempty_witness :
    transceive (echoChannel [0x07]) [0x5A]
      = .error (.malformedResponse ([0x07] : List Nat).length) :=
  C9_short_response_and_nonempty.1 (echoChannel [0x07]) [0x5A] [0x07]
    rfl (by decide) rfl (by decide)

/-- C4: a byte is rejected by the FileType enumeration exactly when it
is none of the six assigned codes; for every such unassigned
discriminant byte the decode fails with the enum ValueError carrying
that byte, and for the assigned-but-unimplemented TransactionMac code
0x05 it fails with the NotImplementedError carrying that byte — in both
cases an unsupported-file-type failure reporting the raw discriminant. -/
theorem C4_unsupported_file_type :
    (∀ b : Nat, DESFireFileType.ofByte b = none ↔
      (b ≠ 0x00 ∧ b ≠ 0x01 ∧ b ≠ 0x02 ∧ b ≠ 0x03 ∧ b ≠ 0x04 ∧ b ≠ 0x05)) ∧
    (∀ data : List Nat, 1 ≤ data.length →
      DESFireFileType.ofByte (data.getD 0 0) = none →
      (FileSettings.init.parse data).2
        = some (.valueErrorFileType (data.getD 0 0))) ∧
    (∀ data : List Nat, 2 ≤ data.length → data.getD 0 0 = 0x05 →
      (DESFireCommunicationMode.ofByte (data.getD 1 0)).isSome →
      (FileSettings.init.parse data).2 = some (.notImplementedError 0x05)) := by
  refine ⟨?_, ?_, ?_⟩
  · intro b
    unfold DESFireFileType.ofByte
    split_ifs <;> simp_all
  · intro data h1 hb
    rcases data with _ | ⟨d0, rest⟩
    · simp at h1
    · simp only [List.getD_cons_zero] at hb ⊢
      simp [FileSettings.parse, hb]
  · intro data h2 h0 hcm
    rcases data with _ | ⟨d0, _ | ⟨d1, rest⟩⟩
    · simp at h2
    · simp at h2
    · simp only [List.getD_cons_zero] at h0
      subst h0
      simp only [List.getD_cons_succ, List.getD_cons_zero] at hcm
      rcases hcm' : DESFireCommunicationMode.ofByte d1 with _ | cm
      · rw [hcm'] at hcm
        simp at hcm
      · simp [FileSettings.parse, DESFireFileType.ofByte, hcm']

/-- Witness for C4 at the unassigned discriminant 0x07. -/
theorem C4_unsupported_file_type_witness :
    (FileSettings.init.parse [0x07]).2
      = some (.valueErrorFileType (([0x07] : List Nat).getD 0 0)) :=
  C4_unsupported_file_type.2.1 [0x07] (by decide) (by decide)

/-- C5 counterexample: on the input `[0x00, 0xFF]` the decode fails (at
the communication-mode byte), yet the settings object's file_type field
has been populated from the failing input (it was `none` on the fresh
object). -/
theorem C5_no_partial_state_counterexample :
    (FileSettings.init.parse [0x00, 0xFF]).2 = some (.valueErrorCommMode 0xFF) ∧
    (FileSettings.init.parse [0x00, 0xFF]).1.file_type
      = some .MDFT_STANDARD_DATA_FILE ∧
    FileSettings.init.file_type = none := by
  decide

/-- C5 (amended): a failed decode propagates its exception and returns
no value, but the settings object retains every field assigned before
the failing statement: whenever byte 0 names a supported file type, the
object's file_type is populated from the input even when a later step
fails. -/
theorem C5_mutation_persists (fs : FileSettings) (data : List Nat) (b0 : Nat)
    (ft : DESFireFileType) (h0 : data[0]? = some b0)
    (hft : DESFireFileType.ofByte b0 = some ft) :
    ((fs.parse data).1).file_type = some ft := by
  rcases data with _ | ⟨d0, rest⟩
  · simp at h0
  · simp only [List.getElem?_cons_zero, Option.some.injEq] at h0
    subst h0
    simp only [FileSettings.parse]
    (repeat' split) <;> simp_all

/-- Witness for C5 at the failing input of the counterexample. -/
theorem C5_mutation_persists_witness :
    ((FileSettings.init.parse [0x00, 0xFF]).1).file_type
      = some DESFireFileType.MDFT_STANDARD_DATA_FILE :=
  C5_mutation_persists FileSettings.init [0x00, 0xFF] 0x00
    .MDFT_STANDARD_DATA_FILE (by decide) (by decide)

/-- C10: when byte 1 is not a valid CommunicationMode code the decode
fails at the header stage — with the communication-mode ValueError (or,
when byte 0 is already invalid, the file-type ValueError) — before the
permissions are decoded and before any variant-specific field is
touched. -/
theorem C10_invalid_comm_mode (data : List Nat) (hlen : 2 ≤ data.length)
    (hcm : DESFireCommunicationMode.ofByte (data.getD 1 0) = none) :
    ((FileSettings.init.parse data).2
        = some (.valueErrorCommMode (data.getD 1 0)) ∨
     (FileSettings.init.parse data).2
        = some (.valueErrorFileType (data.getD 0 0))) ∧
    (FileSettings.init.parse data).1.permissions = none ∧
    (FileSettings.init.parse data).1.encryption = none ∧
    (FileSettings.init.parse data).1.file_size = 0 ∧
    (FileSettings.init.parse data).1.lower_limit = 0 ∧
    (FileSettings.init.parse data).1.upper_limit = 0 ∧
    (FileSettings.init.parse data).1.limited_credit_value = 0 ∧
    (FileSettings.init.parse data).1.limited_credit_enabled = false ∧
    (FileSettings.init.parse data).1.record_count = 0 ∧
    (FileSettings.init.parse data).1.max_record_count = 0 := by
  rcases data with _ | ⟨d0, _ | ⟨d1, rest⟩⟩
  · simp at hlen
  · simp at hlen
  · simp only [List.getD_cons_succ, List.getD_cons_zero] at hcm ⊢
    rcases h0 : DESFireFileType.ofByte d0 with _ | ft
    · simp [FileSettings.parse, h0, FileSettings.init]
    · simp [FileSettings.parse, h0, hcm, FileSettings.init]

/-- Witness for C10 at input `[0x00, 0x02]` (0x02 is not a
communication-mode code). -/
theorem C10_invalid_comm_mode_witness :
    ((FileSettings.init.parse [0x00, 0x02]).2
        = some (.valueErrorCommMode (([0x00, 0x02] : List Nat).getD 1 0)) ∨
     (FileSettings.init.parse [0x00, 0x02]).2
        = some (.valueErrorFileType (([0x00, 0x02] : List Nat).getD 0 0))) ∧
    (FileSettings.init.parse [0x00, 0x02]).1.permissions = none ∧
    (FileSettings.init.parse [0x00, 0x02]).1.encryption = none ∧
    (FileSettings.init.parse [0x00, 0x02]).1.file_size = 0 ∧
    (FileSettings.init.parse [0x00, 0x02]).1.lower_limit = 0 ∧
    (FileSettings.init.parse [0x00, 0x02]).1.upper_limit = 0 ∧
    (FileSettings.init.parse [0x00, 0x02]).1.limited_credit_value = 0 ∧
    (FileSettings.init.parse [0x00, 0x02]).1.limited_credit_enabled = false ∧
    (FileSettings.init.parse [0x00, 0x02]).1.record_count = 0 ∧
    (FileSettings.init.parse [0x00, 0x02]).1.max_record_count = 0 :=
  C10_invalid_comm_mode [0x00, 0x02] (by decide) (by decide)

/-- C6: for every buffer of length ≥ 7 whose discriminant selects
StandardData or BackupData (and whose communication-mode byte is a
member of the enumeration), the decode succeeds and reads file_size as
the 3-byte little-endian unsigned integer at offsets 4–6; in particular
`[0x00, 0x03, 0x00, 0x23, 0x08, 0x00, 0x00]` decodes to StandardData,
Encrypted mode (code 0x03), permissions decoded from `[0x00, 0x23]` and
file_size = 8. -/
theorem C6_data_file_size :
    (∀ (fs : FileSettings) (data : List Nat), 7 ≤ data.length →
      (data.getD 0 0 = 0x00 ∨ data.getD 0 0 = 0x01) →
      (DESFireCommunicationMode.ofByte (data.getD 1 0)).isSome →
      (fs.parse data).2 = none ∧
      (fs.parse data).1.file_size
        = data.getD 4 0 + 256 * data.getD 5 0 + 65536 * data.getD 6 0) ∧
    FileSettings.init.parse [0x00, 0x03, 0x00, 0x23, 0x08, 0x00, 0x00]
      = ({ file_type := some .MDFT_STANDARD_DATA_FILE,
           encryption := some .ENCRYPTED,
           permissions := some (FilePermissions.parse [0x00, 0x23]),
           file_size := 8 }, none) := by
  constructor
  · intro fs data hlen h0 hcm
    rcases data with _ | ⟨d0, _ | ⟨d1, _ | ⟨d2, _ | ⟨d3, _ | ⟨d4, _ | ⟨d5, _ |
      ⟨d6, rest⟩⟩⟩⟩⟩⟩⟩ <;> simp at hlen
    simp only [List.getD_cons_zero, List.getD_cons_succ] at h0 hcm ⊢
    rcases hcm' : DESFireCommunicationMode.ofByte d1 with _ | cm
    · rw [hcm'] at hcm
      simp at hcm
    · rcases h0 with h0 | h0 <;> subst h0 <;>
        simp [FileSettings.parse, DESFireFileType.ofByte, hcm', pySlice,
          structUnpackU32LE]
  · decide

/-- Witness for C6 at the spec's StandardData example input. -/
theorem C6_data_file_size_witness :
    (FileSettings.init.parse [0x00, 0x03, 0x00, 0x23, 0x08, 0x00, 0x00]).2 = none ∧
    (FileSettings.init.parse [0x00, 0x03, 0x00, 0x23, 0x08, 0x00, 0x00]).1.file_size
      = ([0x00, 0x03, 0x00, 0x23, 0x08, 0x00, 0x00] : List Nat).getD 4 0
        + 256 * ([0x00, 0x03, 0x00, 0x23, 0x08, 0x00, 0x00] : List Nat).getD 5 0
        + 65536 * ([0x00, 0x03, 0x00, 0x23, 0x08, 0x00, 0x00] : List Nat).getD 6 0 :=
  C6_data_file_size.1 FileSettings.init [0x00, 0x03, 0x00, 0x23, 0x08, 0x00, 0x00]
    (by decide) (by decide) (by decide)

/-- C7: for every buffer of length ≥ 17 whose discriminant selects
ValueFileWithBackup (and whose communication-mode byte is a member of
the enumeration), the decode succeeds, reads lower_limit from bytes
4–7, upper_limit from bytes 8–11 and limited_credit_value from bytes
12–15 as 4-byte little-endian 32-bit unsigned integers, and sets
limited_credit_enabled to true iff byte 16 is nonzero. -/
theorem C7_value_file_fields (fs : FileSettings) (data : List Nat)
    (hlen : 17 ≤ data.length) (h0 : data.getD 0 0 = 0x02)
    (hcm : (DESFireCommunicationMode.ofByte (data.getD 1 0)).isSome) :
    (fs.parse data).2 = none ∧
    (fs.parse data).1.lower_limit
      = data.getD 4 0 + 256 * data.getD 5 0 + 65536 * data.getD 6 0
        + 16777216 * data.getD 7 0 ∧
    (fs.parse data).1.upper_limit
      = data.getD 8 0 + 256 * data.getD 9 0 + 65536 * data.getD 10 0
        + 16777216 * data.getD 11 0 ∧
    (fs.parse data).1.limited_credit_value
      = data.getD 12 0 + 256 * data.getD 13 0 + 65536 * data.getD 14 0
        + 16777216 * data.getD 15 0 ∧
    ((fs.parse data).1.limited_credit_enabled = true ↔ data.getD 16 0 ≠ 0) := by
  rcases data with _ | ⟨d0, _ | ⟨d1, _ | ⟨d2, _ | ⟨d3, _ | ⟨d4, _ | ⟨d5, _ |
    ⟨d6, _ | ⟨d7, _ | ⟨d8, _ | ⟨d9, _ | ⟨d10, _ | ⟨d11, _ | ⟨d12, _ | ⟨d13, _ |
    ⟨d14, _ | ⟨d15, _ | ⟨d16, rest⟩⟩⟩⟩⟩⟩⟩⟩⟩⟩⟩⟩⟩⟩⟩⟩⟩ <;> simp at hlen
  simp only [List.getD_cons_zero, List.getD_cons_succ] at h0 hcm ⊢
  subst h0
  rcases hcm' : DESFireCommunicationMode.ofByte d1 with _ | cm
  · rw [hcm'] at hcm
    simp at hcm
  · simp [FileSettings.parse, DESFireFileType.ofByte, hcm', pySlice,
      structUnpackU32LE]

/-- Witness for C7 at a 17-byte ValueFileWithBackup buffer with
limited-credit byte 0x01. -/
theorem C7_value_file_fields_witness :
    (FileSettings.init.parse
        [2, 0, 0, 0, 1, 0, 0, 0, 2, 0, 0, 0, 3, 0, 0, 0, 1]).2 = none ∧
    (FileSettings.init.parse
        [2, 0, 0, 0, 1, 0, 0, 0, 2, 0, 0, 0, 3, 0, 0, 0, 1]).1.lower_limit
      = ([2, 0, 0, 0, 1, 0, 0, 0, 2, 0, 0, 0, 3, 0, 0, 0, 1] : List Nat).getD 4 0
        + 256 * ([2, 0, 0, 0, 1, 0, 0, 0, 2, 0, 0, 0, 3, 0, 0, 0, 1] : List Nat).getD 5 0
        + 65536 * ([2, 0, 0, 0, 1, 0, 0, 0, 2, 0, 0, 0, 3, 0, 0, 0, 1] : List Nat).getD 6 0
        + 16777216 * ([2, 0, 0, 0, 1, 0, 0, 0, 2, 0, 0, 0, 3, 0, 0, 0, 1] : List Nat).getD 7 0 ∧
    (FileSettings.init.parse
        [2, 0, 0, 0, 1, 0, 0, 0, 2, 0, 0, 0, 3, 0, 0, 0, 1]).1.upper_limit
      = ([2, 0, 0, 0, 1, 0, 0, 0, 2, 0, 0, 0, 3, 0, 0, 0, 1] : List Nat).getD 8 0
        + 256 * ([2, 0, 0, 0, 1, 0, 0, 0, 2, 0, 0, 0, 3, 0, 0, 0, 1] : List Nat).getD 9 0
        + 65536 * ([2, 0, 0, 0, 1, 0, 0, 0, 2, 0, 0, 0, 3, 0, 0, 0, 1] : List Nat).getD 10 0
        + 16777216 * ([2, 0, 0, 0, 1, 0, 0, 0, 2, 0, 0, 0, 3, 0, 0, 0, 1] : List Nat).getD 11 0 ∧
    (FileSettings.init.parse
        [2, 0, 0, 0, 1, 0, 0, 0, 2, 0, 0, 0, 3, 0, 0, 0, 1]).1.limited_credit_value
      = ([2, 0, 0, 0, 1, 0, 0, 0, 2, 0, 0, 0, 3, 0, 0, 0, 1] : List Nat).getD 12 0
        + 256 * ([2, 0, 0, 0, 1, 0, 0, 0, 2, 0, 0, 0, 3, 0, 0, 0, 1] : List Nat).getD 13 0
        + 65536 * ([2, 0, 0, 0, 1, 0, 0, 0, 2, 0, 0, 0, 3, 0, 0, 0, 1] : List Nat).getD 14 0
        + 16777216 * ([2, 0, 0, 0, 1, 0, 0, 0, 2, 0, 0, 0, 3, 0, 0, 0, 1] : List Nat).getD 15 0 ∧
    ((FileSettings.init.parse
        [2, 0, 0, 0, 1, 0, 0, 0, 2, 0, 0, 0, 3, 0, 0, 0, 1]).1.limited_credit_enabled = true
      ↔ ([2, 0, 0, 0, 1, 0, 0, 0, 2, 0, 0, 0, 3, 0, 0, 0, 1] : List Nat).getD 16 0 ≠ 0) :=
  C7_value_file_fields FileSettings.init
    [2, 0, 0, 0, 1, 0, 0, 0, 2, 0, 0, 0, 3, 0, 0, 0, 1]
    (by decide) (by decide) (by decide)

/-- C3 counterexample: the StandardData buffer `[0x00, 0x00, 0x00, 0x00]`
(4 bytes, shorter than the 7 the variant needs) makes the decode fail
with the incidental `struct.unpack` buffer-size error, not with a
MalformedResponse raised by an explicit length check — the codec
contains no such check. -/
theorem C3_short_buffer_counterexample :
    (FileSettings.init.parse [0x00, 0x00, 0x00, 0x00]).2
      = some PyErr.structError := by
  decide

/-- C3 (amended): for every input buffer shorter than the minimum length
required by its decoded variant (a StandardData/BackupData buffer of
fewer than 7 bytes, a ValueFileWithBackup buffer of fewer than 17
bytes, a record-file buffer of fewer than 13 bytes), the decode fails,
but via an incidental exception — the `struct.unpack` buffer-size error
or an index error — and not via a MalformedResponse from an explicit
length check. -/
theorem C3_short_buffer_fails :
    (∀ data : List Nat, 2 ≤ data.length → data.length < 7 →
      (data.getD 0 0 = 0x00 ∨ data.getD 0 0 = 0x01) →
      (DESFireCommunicationMode.ofByte (data.getD 1 0)).isSome →
      (FileSettings.init.parse data).2 = some .structError) ∧
    (∀ data : List Nat, 2 ≤ data.length → data.length < 17 →
      data.getD 0 0 = 0x02 →
      (DESFireCommunicationMode.ofByte (data.getD 1 0)).isSome →
      ((FileSettings.init.parse data).2 = some .structError ∨
       (FileSettings.init.parse data).2 = some .indexError)) ∧
    (∀ data : List Nat, 2 ≤ data.length → data.length < 13 →
      (data.getD 0 0 = 0x03 ∨ data.getD 0 0 = 0x04) →
      (DESFireCommunicationMode.ofByte (data.getD 1 0)).isSome →
      (FileSettings.init.parse data).2 = some .structError) := by
  refine ⟨?_, ?_, ?_⟩
  · intro data h2 h7 h0 hcm
    rcases data with _ | ⟨d0, _ | ⟨d1, rest⟩⟩
    · simp at h2
    · simp at h2
    · simp only [List.getD_cons_zero, List.getD_cons_succ] at h0 hcm
      simp only [List.length_cons] at h7
      rcases hcm' : DESFireCommunicationMode.ofByte d1 with _ | cm
      · rw [hcm'] at hcm
        simp at hcm
      · have hs : (pySlice (d0 :: d1 :: rest) 4 7).length ≠ 3 := by
          simp only [pySlice_length, List.length_cons]
          omega
        rcases h0 with h0 | h0 <;> subst h0 <;>
          simp [FileSettings.parse, DESFireFileType.ofByte, hcm',
            structUnpackU32LE, hs]
  · intro data h2 h17 h0 hcm
    rcases data with _ | ⟨d0, _ | ⟨d1, rest⟩⟩
    · simp at h2
    · simp at h2
    · simp only [List.getD_cons_zero, List.getD_cons_succ] at h0 hcm
      simp only [List.length_cons] at h17
      subst h0
      rcases hcm' : DESFireCommunicationMode.ofByte d1 with _ | cm
      · rw [hcm'] at hcm
        simp at hcm
      · rcases Nat.lt_or_ge (rest.length + 2) 8 with h8 | h8
        · have hs : (pySlice (2 :: d1 :: rest) 4 8).length ≠ 4 := by
            simp only [pySlice_length, List.length_cons]
            omega
          refine Or.inl ?_
          simp [FileSettings.parse, DESFireFileType.ofByte, hcm',
            structUnpackU32LE, hs]
        · have ha : (pySlice (2 :: d1 :: rest) 4 8).length = 4 := by
            simp only [pySlice_length, List.length_cons]
            omega
          rcases Nat.lt_or_ge (rest.length + 2) 12 with h12 | h12
          · have hs : (pySlice (2 :: d1 :: rest) 8 12).length ≠ 4 := by
              simp only [pySlice_length, List.length_cons]
              omega
            refine Or.inl ?_
            simp [FileSettings.parse, DESFireFileType.ofByte, hcm',
              structUnpackU32LE, ha, hs]
          · have hb : (pySlice (2 :: d1 :: rest) 8 12).length = 4 := by
              simp only [pySlice_length, List.length_cons]
              omega
            rcases Nat.lt_or_ge (rest.length + 2) 16 with h16 | h16
            · have hs : (pySlice (2 :: d1 :: rest) 12 16).length ≠ 4 := by
                simp only [pySlice_length, List.length_cons]
                omega
              refine Or.inl ?_
              simp [FileSettings.parse, DESFireFileType.ofByte, hcm',
                structUnpackU32LE, ha, hb, hs]
            · have hc : (pySlice (2 :: d1 :: rest) 12 16).length = 4 := by
                simp only [pySlice_length, List.length_cons]
                omega
              have h16' : rest[14]? = none :=
                List.getElem?_eq_none (by omega)
              refine Or.inr ?_
              simp [FileSettings.parse, DESFireFileType.ofByte, hcm',
                structUnpackU32LE, ha, hb, hc, h16']
  · intro data h2 h13 h0 hcm
    rcases data with _ | ⟨d0, _ | ⟨d1, rest⟩⟩
    · simp at h2
    · simp at h2
    · simp only [List.getD_cons_zero, List.getD_cons_succ] at h0 hcm
      simp only [List.length_cons] at h13
      rcases hcm' : DESFireCommunicationMode.ofByte d1 with _ | cm
      · rw [hcm'] at hcm
        simp at hcm
      · rcases Nat.lt_or_ge (rest.length + 2) 7 with h7 | h7
        · have hs : (pySlice (d0 :: d1 :: rest) 4 7).length ≠ 3 := by
            simp only [pySlice_length, List.length_cons]
            omega
          rcases h0 with h0 | h0 <;> subst h0 <;>
            simp [FileSettings.parse, DESFireFileType.ofByte, hcm',
              structUnpackU32LE, hs]
        · have ha : (pySlice (d0 :: d1 :: rest) 4 7).length = 3 := by
            simp only [pySlice_length, List.length_cons]
            omega
          rcases Nat.lt_or_ge (rest.length + 2) 10 with h10 | h10
          · have hs : (pySlice (d0 :: d1 :: rest) 7 10).length ≠ 3 := by
              simp only [pySlice_length, List.length_cons]
              omega
            rcases h0 with h0 | h0 <;> subst h0 <;>
              simp [FileSettings.parse, DESFireFileType.ofByte, hcm',
                structUnpackU32LE, ha, hs]
          · have hb : (pySlice (d0 :: d1 :: rest) 7 10).length = 3 := by
              simp only [pySlice_length, List.length_cons]
              omega
            have hs : (pySlice (d0 :: d1 :: rest) 10 13).length ≠ 3 := by
              simp only [pySlice_length, List.length_cons]
              omega
            rcases h0 with h0 | h0 <;> subst h0 <;>
              simp [FileSettings.parse, DESFireFileType.ofByte, hcm',
                structUnpackU32LE, ha, hb, hs]

/-- Witness for C3 at the 5-byte BackupData buffer
`[0x01, 0x00, 0x00, 0x00, 0x00]`. -/
theorem C3_short_buffer_fails_witness :
    (FileSettings.init.parse [0x01, 0x00, 0x00, 0x00, 0x00]).2
      = some PyErr.structError :=
  C3_short_buffer_fails.1 [0x01, 0x00, 0x00, 0x00, 0x00]
    (by decide) (by decide) (by decide) (by decide)

end Desfire
